import Mathlib

/-!
Shallow embedding of `src/docutils/frontend.py` (classes `OptionParser` and
`ConfigParser`), together with theorems checking the repository's
specification against it.

Python values that can appear as option defaults, `const` values, or as the
`report_level` / `halt_level` settings are modelled by `Value` (an integer, a
byte string, or `None`).  Python 2 byte strings are modelled by Lean `String`
restricted to the ASCII behaviour of `str.lower()` / `int()`.
-/

namespace Docutils

/-- A Python scalar value as used in `frontend.py`: an int, a (byte) string,
or `None`. -/
inductive Value where
  | vInt (n : Int)
  | vStr (s : String)
  | vNone
deriving Repr, DecidableEq

/-- Classified failures of the frontend core.
`configurationError` models the `ValueError` raised by the tuple unpacking
`title, description, option_spec = cmdline_options[i:i+3]` when fewer than
three cells remain (malformed group-specification triples, wrong arity).
`dynamicTypeError` models a Python `TypeError` from an ill-typed cell or
value (e.g. iterating a non-sequence third cell, or `int(None)`).
`unknownThreshold` and `tooManyArguments` model the two `self.error(...)`
calls, carrying the formatted message. -/
inductive FrontendError where
  | configurationError
  | dynamicTypeError
  | unknownThreshold (msg : String)
  | tooManyArguments (msg : String)
deriving Repr, DecidableEq

/-- ASCII whitespace stripped by Python 2 `int()` on strings. -/
def pyIsSpace (c : Char) : Bool :=
  c = ' ' || c = '\t' || c = '\n' || c = '\x0b' || c = '\x0c' || c = '\r'

/-- Numeric value of a list of decimal digit characters. -/
def digitsVal (l : List Char) : Nat :=
  l.foldl (fun a c => a * 10 + (c.toNat - 48)) 0

/-- Python 2 `int(s)` on a byte string: strip ASCII whitespace, allow one
optional sign, then a non-empty run of decimal digits and nothing else.
`none` models the `ValueError` raised otherwise. -/
def pyParseInt (s : String) : Option Int :=
  let l := ((s.data.dropWhile pyIsSpace).reverse.dropWhile pyIsSpace).reverse
  match l with
  | '-' :: rest =>
      if !rest.isEmpty && rest.all Char.isDigit then some (-(digitsVal rest : Int)) else none
  | '+' :: rest =>
      if !rest.isEmpty && rest.all Char.isDigit then some ((digitsVal rest : Int)) else none
  | rest =>
      if !rest.isEmpty && rest.all Char.isDigit then some ((digitsVal rest : Int)) else none

/-- Python 2 `str.lower()` on one byte: map `A`–`Z` (65–90) to `a`–`z`,
leave every other byte unchanged. -/
def pyCharLower (c : Char) : Char :=
  if h : 65 ≤ c.toNat ∧ c.toNat ≤ 90 then
    Char.ofNatAux (c.toNat + 32) (Or.inl (by omega))
  else c

/-- Python 2 `str.lower()` on a byte string. -/
def pyLower (s : String) : String :=
  ⟨s.data.map pyCharLower⟩

/-- One byte of Python `.replace('-', '_')`: the dash `-` (45) becomes an
underscore `_` (95); every other byte is unchanged. -/
def dashToUnderscore (c : Char) : Char :=
  if c.toNat = 45 then '_' else c

/-- Python `repr` of a `Value`, as interpolated by `'%r' % level`.
(Escaping of quotes or non-printable bytes inside the string is not
modelled; no threshold message in the claims needs it.) -/
def pyRepr : Value → String
  | .vInt n => toString n
  | .vStr s => "'" ++ s ++ "'"
  | .vNone => "None"

/-- The keyword-argument dictionary of one option specification
(`{'action': ..., 'dest': ..., 'const': ..., 'default': ..., 'choices': ...,
'metavar': ...}`).  A field is `none` when the key is absent from the dict;
a key explicitly mapped to Python `None` holds `some Value.vNone`. -/
structure Kwargs where
  action : Option String
  dest : Option String
  const : Option Value
  defaultVal : Option Value
  choices : Option (List String)
  metavar : Option String
deriving Repr, DecidableEq

/-- An empty keyword-argument dictionary. -/
def Kwargs.empty : Kwargs :=
  ⟨none, none, none, none, none, none⟩

/-- One option specification tuple
`('help text', [list of option strings], {keyword arguments})`. -/
structure OptionEntry where
  help : String
  option_strings : List String
  kwargs : Kwargs
deriving Repr, DecidableEq

/-- One cell of a flat `cmdline_options` tuple.  The tuple holds titles and
descriptions (`None` or a string) and entry sequences in consecutive
positions, so its cells are heterogeneous Python values. -/
inductive SpecVal where
  | vNone
  | vStr (s : String)
  | vSpec (entries : List OptionEntry)
deriving Repr, DecidableEq

/-- Python truthiness of a `cmdline_options` cell, as tested by
`if title:` — `None` and the empty string are falsy (a tuple of entries is
truthy iff non-empty). -/
def SpecVal.truthy : SpecVal → Bool
  | .vNone => false
  | .vStr s => !(s == "")
  | .vSpec es => !es.isEmpty

/-- A Docutils component: anything exposing a `.cmdline_options`
attribute. -/
structure Component where
  cmdline_options : List SpecVal
deriving Repr, DecidableEq

/-- An `optik.OptionGroup` created by `populate_from_components`: the title
and description cells it was built from and the options added to it, in
order. -/
structure OptGroup where
  title : SpecVal
  description : SpecVal
  option_list : List OptionEntry
deriving Repr, DecidableEq

/-- The mutable option bucket of the parser.  `option_groups` are the named
sections added by `add_option_group`, in creation order; `option_list` holds
the options added directly to the parser (`group = self`, the shared
top-level bucket); `registered` mirrors the parser-level bookkeeping the
underlying `optik` parser performs on every `add_option` call (whether on a
group or on the parser itself), recording all options in registration
order. -/
structure ParserState where
  option_groups : List OptGroup
  option_list : List OptionEntry
  registered : List OptionEntry
deriving Repr, DecidableEq

/-- The empty option bucket of a freshly constructed parser. -/
def ParserState.empty : ParserState :=
  ⟨[], [], []⟩

namespace OptionParser

/-- `OptionParser.threshold_choices`:
`'info 1 warning 2 error 3 severe 4 none 5'.split()`. -/
def threshold_choices : List String :=
  ["info", "1", "warning", "2", "error", "3", "severe", "4", "none", "5"]

/-- `OptionParser.thresholds`: lookup table for `--report` and `--halt`
threshold values. -/
def thresholds : List (String × Int) :=
  [("info", 1), ("warning", 2), ("error", 3), ("severe", 4), ("none", 5)]

/-- `OptionParser.cmdline_options`: the facade's own built-in group — one
group-specification triple `('General Docutils Options', None, (...))` laid
out flat, exactly as in `frontend.py`. -/
def cmdline_options : List SpecVal :=
  [.vStr "General Docutils Options",
   .vNone,
   .vSpec
     [⟨"Include a \"Generated by Docutils\" credit with a link, at the end of the document.",
       ["--generator", "-g"],
       { Kwargs.empty with action := some "store_true" }⟩,
      ⟨"Do not include a generator credit.",
       ["--no-generator"],
       { Kwargs.empty with action := some "store_false", dest := some "generator" }⟩,
      ⟨"Include the date at the end of the document (UTC).",
       ["--date", "-d"],
       { Kwargs.empty with action := some "store_const", const := some (.vStr "%Y-%m-%d"),
                           dest := some "datestamp" }⟩,
      ⟨"Include the time & date at the end of the document (UTC).",
       ["--time", "-t"],
       { Kwargs.empty with action := some "store_const",
                           const := some (.vStr "%Y-%m-%d %H:%M UTC"),
                           dest := some "datestamp" }⟩,
      ⟨"Do not include a datestamp of any kind.",
       ["--no-datestamp"],
       { Kwargs.empty with action := some "store_const", const := some .vNone,
                           dest := some "datestamp" }⟩,
      ⟨"Include a \"View document source.\" link.",
       ["--source-link", "-s"],
       { Kwargs.empty with action := some "store_true" }⟩,
      ⟨"Do not include a \"(View document source)\" link.",
       ["--no-source-link"],
       { Kwargs.empty with action := some "store_false", dest := some "source_link" }⟩,
      ⟨"Set verbosity threshold; report system messages at or higher than <level> (by name or number: \"info\" or \"1\", warning/2, error/3, severe/4; also, \"none\" or \"5\").  Default is 2 (warning).",
       ["--report", "-r"],
       { Kwargs.empty with choices := some threshold_choices, defaultVal := some (.vInt 2),
                           dest := some "report_level", metavar := some "<level>" }⟩,
      ⟨"Report all system messages, info-level and higher.  (Same as \"--report=info\".)",
       ["--verbose", "-v"],
       { Kwargs.empty with action := some "store_const", const := some (.vStr "info"),
                           dest := some "report_level" }⟩,
      ⟨"Set the threshold (<level>) at or above which system messages are converted to exceptions, halting execution immediately.  Levels as in --report.  Default is 4 (severe).",
       ["--halt"],
       { Kwargs.empty with choices := some threshold_choices, dest := some "halt_level",
                           defaultVal := some (.vInt 4), metavar := some "<level>" }⟩,
      ⟨"Same as \"--halt=info\": halt processing at the slightest problem.",
       ["--strict"],
       { Kwargs.empty with action := some "store_const", const := some (.vStr "info"),
                           dest := some "halt_level" }⟩,
      ⟨"Report debug-level system messages.",
       ["--debug"],
       { Kwargs.empty with action := some "store_true" }⟩,
      ⟨"Do not report debug-level system messages.",
       ["--no-debug"],
       { Kwargs.empty with action := some "store_false", dest := some "debug" }⟩,
      ⟨"Send the output of system messages (warnings) to <file>.",
       ["--warnings"],
       { Kwargs.empty with dest := some "warning_stream", metavar := some "<file>" }⟩,
      ⟨"Specify the encoding of input text.  Default is locale-dependent.",
       ["--input-encoding", "-i"],
       { Kwargs.empty with metavar := some "<name>" }⟩,
      ⟨"Specify the encoding for output.  Default is UTF-8.",
       ["--output-encoding", "-o"],
       { Kwargs.empty with metavar := some "<name>", defaultVal := some (.vStr "utf-8") }⟩,
      ⟨"Specify the language of input text (ISO 639 2-letter identifier).  Default is \"en\" (English).",
       ["--language", "-l"],
       { Kwargs.empty with dest := some "language_code", defaultVal := some (.vStr "en"),
                           metavar := some "<name>" }⟩,
      ⟨"Show this program's version number and exit.",
       ["--version"],
       { Kwargs.empty with action := some "version" }⟩,
      ⟨"Show this help message and exit.",
       ["--help", "-h"],
       { Kwargs.empty with action := some "help" }⟩,
      ⟨"SUPPRESSHELP",
       ["--dump-internal-document-attributes"],
       { Kwargs.empty with action := some "store_true" }⟩]]

/-- Modelled from the spec: `optik` is the external flag-parsing primitive
(out of scope); `optik.SUPPRESS_HELP` is its marker string hiding an option
from help output, embedded above as the literal `"SUPPRESSHELP"`. -/
def SUPPRESS_HELP : String :=
  "SUPPRESSHELP"

/-- Modelled from the spec: `OptionParser.version_template` is
`'%%prog (Docutils %s)' % docutils.__version__`; the toolchain version
identifier `docutils.__version__` lives outside the sources, so it is a
parameter. -/
def version_template (docutils_version : String) : String :=
  "%prog (Docutils " ++ docutils_version ++ ")"

/-- `group.add_option(...)` for each entry of a triple whose title is
truthy: `optik.OptionGroup(self, title, description)` is created, added via
`add_option_group`, and receives the triple's entries in order; each
`add_option` also registers the option with the parser. -/
def addGroup (st : ParserState) (title description : SpecVal) (es : List OptionEntry) :
    ParserState :=
  { st with
    option_groups := st.option_groups ++ [⟨title, description, es⟩],
    registered := st.registered ++ es }

/-- `group = self`: the triple's entries are added directly to the parser's
shared top-level bucket, in order. -/
def addTopLevel (st : ParserState) (es : List OptionEntry) : ParserState :=
  { st with
    option_list := st.option_list ++ es,
    registered := st.registered ++ es }

/-- The `while i < len(cmdline_options)` loop of `populate_from_components`
over one component's flat specification: take three cells at a time as
`(title, description, option_spec)` and add the entries to a new group or to
the top level.  A one- or two-cell tail makes the tuple unpacking raise
(`configurationError`); a complete triple whose third cell is not an entry
sequence would raise a `TypeError` when iterated (`dynamicTypeError`). -/
def processComponent (st : ParserState) :
    List SpecVal → Except FrontendError ParserState
  | [] => .ok st
  | title :: description :: .vSpec es :: rest =>
      processComponent
        (if title.truthy then addGroup st title description es else addTopLevel st es) rest
  | _ :: _ :: _ :: _ => .error .dynamicTypeError
  | _ => .error .configurationError

/-- `OptionParser.populate_from_components(components)`: for each component
that is not `None`, walk its `cmdline_options` in triples. -/
def populate_from_components (st : ParserState) :
    List (Option Component) → Except FrontendError ParserState
  | [] => .ok st
  | none :: rest => populate_from_components st rest
  | some comp :: rest => do
      let st' ← processComponent st comp.cmdline_options
      populate_from_components st' rest

/-- `OptionParser.__init__(components, ...)`: default the version string to
the template when it is unset (`if not self.version:` — `None` or the empty
string), then populate from `tuple(components) + (self,)` — the facade's own
built-in group is merged last. -/
def init (docutils_version : String) (version0 : Option String)
    (components : List (Option Component)) :
    Except FrontendError (String × ParserState) :=
  let v : String :=
    match version0 with
    | some s => if s = "" then version_template docutils_version else s
    | none => version_template docutils_version
  (populate_from_components ParserState.empty (components ++ [some ⟨cmdline_options⟩])).map
    (fun st => (v, st))

/-- `OptionParser.check_threshold(level)`:
`try: return int(level) / except ValueError: try: return
self.thresholds[level.lower()] / except (KeyError, AttributeError):
self.error('Unknown threshold: %r.' % level)`.
An integer input is returned by `int(level)` directly; on a string,
`int` parsing is tried first, then the lowercased table lookup; `int(None)`
raises a `TypeError`, which `except ValueError` does not catch. -/
def check_threshold (level : Value) : Except FrontendError Int :=
  match level with
  | .vInt n => .ok n
  | .vNone => .error .dynamicTypeError
  | .vStr s =>
    match pyParseInt s with
    | some n => .ok n
    | none =>
      match thresholds.lookup (pyLower s) with
      | some n => .ok n
      | none => .error (.unknownThreshold ("Unknown threshold: " ++ pyRepr (.vStr s) ++ "."))

/-- `OptionParser.check_args(args)`: pop up to two leading elements as
`source` then `destination`; error if anything remains. -/
def check_args (args : List String) : Except FrontendError (Option String × Option String) :=
  let p1 : Option String × List String :=
    match args with
    | [] => (none, [])
    | a :: rest => (some a, rest)
  let p2 : Option String × List String :=
    match p1.2 with
    | [] => (none, [])
    | a :: rest => (some a, rest)
  if p2.2.isEmpty then .ok (p1.1, p2.1)
  else .error (.tooManyArguments "Maximum 2 arguments allowed.")

/-- The settings object handed to `check_values`: the two threshold fields
it overwrites, plus the rest of the attribute namespace. -/
structure Values where
  report_level : Value
  halt_level : Value
  others : List (String × Value)
deriving Repr, DecidableEq

/-- `OptionParser.check_values(values, args)`: resolve the two thresholds in
place, validate the positional arguments, return
`(values, source, destination)`; every failure propagates. -/
def check_values (values : Values) (args : List String) :
    Except FrontendError (Values × Option String × Option String) := do
  let rl ← check_threshold values.report_level
  let hl ← check_threshold values.halt_level
  let sd ← check_args args
  return ({ values with report_level := .vInt rl, halt_level := .vInt hl }, sd.1, sd.2)

/-- A flat specification list that decomposes evenly into triples whose
third cell is an entry sequence: the shape `populate_from_components`
processes without error. -/
def wellFormed : List SpecVal → Bool
  | [] => true
  | _ :: _ :: .vSpec _ :: rest => wellFormed rest
  | _ => false

/-- Every *complete* leading triple has an entry sequence in its third cell;
the (possibly short) tail is unconstrained.  Separates the wrong-arity
failure from the ill-typed-cell failure. -/
def completeTriplesOk : List SpecVal → Bool
  | [] => true
  | [_] => true
  | [_, _] => true
  | _ :: _ :: .vSpec _ :: rest => completeTriplesOk rest
  | _ :: _ :: _ :: _ => false

/-- The entries contributed by a flat specification list: the concatenation,
in order, of the entry sequences of its successive triples. -/
def cellsEntries : List SpecVal → List OptionEntry
  | _ :: _ :: .vSpec es :: rest => es ++ cellsEntries rest
  | _ => []

/-- The entries contributed by an optional component (`None` contributes
nothing). -/
def optEntries : Option Component → List OptionEntry
  | some comp => cellsEntries comp.cmdline_options
  | none => []

/-- Concatenation, in order, of every non-null component's entries. -/
def mergedEntries : List (Option Component) → List OptionEntry
  | [] => []
  | c :: rest => optEntries c ++ mergedEntries rest

end OptionParser

namespace ConfigParser

/-- `ConfigParser.optionxform(optionstr)`:
`optionstr.lower().replace('-', '_')`, modelled bytewise (ASCII `lower`,
then every dash `-` (45) replaced by an underscore `_` (95)). -/
def optionxform (s : String) : String :=
  ⟨(s.data.map pyCharLower).map dashToUnderscore⟩

end ConfigParser

/-! Small concrete components used as example inputs in witnesses. -/

/-- A sample option entry, as a component outside the facade would
contribute it. -/
def sampleEntry1 : OptionEntry :=
  ⟨"sample option 1", ["--one"], Kwargs.empty⟩

/-- A second sample option entry. -/
def sampleEntry2 : OptionEntry :=
  ⟨"sample option 2", ["--two"], Kwargs.empty⟩

/-- A third sample option entry. -/
def sampleEntry3 : OptionEntry :=
  ⟨"sample option 3", ["--three"], Kwargs.empty⟩

/-- A sample component with one titled group of two options. -/
def sampleComponentA : Component :=
  ⟨[.vStr "Group A", .vStr "Options for A.", .vSpec [sampleEntry1, sampleEntry2]]⟩

/-- A sample component contributing one ungrouped option. -/
def sampleComponentB : Component :=
  ⟨[.vNone, .vNone, .vSpec [sampleEntry3]]⟩

end Docutils

/-! ## Theorems -/

namespace Docutils

namespace OptionParser

/-- Processing a well-formed flat specification succeeds and appends exactly
its entries, in order, to the parser's registration list. -/
theorem processComponent_wf :
    ∀ (l : List SpecVal) (st : ParserState), wellFormed l = true →
      ∃ st', processComponent st l = .ok st' ∧
        st'.registered = st.registered ++ cellsEntries l
  | [], st, _ => ⟨st, rfl, by simp [cellsEntries]⟩
  | t :: d :: .vSpec es :: rest, st, h => by
      have h' : wellFormed rest = true := by
        simpa [wellFormed] using h
      obtain ⟨st', hrun, hreg⟩ :=
        processComponent_wf rest
          (if t.truthy then addGroup st t d es else addTopLevel st es) h'
      refine ⟨st', ?_, ?_⟩
      · simpa [processComponent] using hrun
      · have hmid : (if t.truthy then addGroup st t d es else addTopLevel st es).registered
            = st.registered ++ es := by
          by_cases ht : t.truthy <;> simp [ht, addGroup, addTopLevel]
        rw [hreg, hmid, cellsEntries]
        simp
  | [_], _, h => by simp [wellFormed] at h
  | [_, _], _, h => by simp [wellFormed] at h
  | _ :: _ :: .vNone :: _, _, h => by simp [wellFormed] at h
  | _ :: _ :: .vStr _ :: _, _, h => by simp [wellFormed] at h

/-- Populating from a list of well-formed optional components succeeds and
appends the concatenation of their entries, in order. -/
theorem populate_wf :
    ∀ (comps : List (Option Component)) (st : ParserState),
      (∀ comp : Component, some comp ∈ comps → wellFormed comp.cmdline_options = true) →
      ∃ st', populate_from_components st comps = .ok st' ∧
        st'.registered = st.registered ++ mergedEntries comps
  | [], st, _ => ⟨st, rfl, by simp [mergedEntries]⟩
  | none :: rest, st, h => by
      obtain ⟨st', hrun, hreg⟩ :=
        populate_wf rest st (fun comp hm => h comp (List.mem_cons_of_mem _ hm))
      exact ⟨st', by simpa [populate_from_components] using hrun,
        by rw [hreg, mergedEntries]; simp [optEntries]⟩
  | some comp :: rest, st, h => by
      obtain ⟨st1, hrun1, hreg1⟩ :=
        processComponent_wf comp.cmdline_options st (h comp (List.mem_cons_self _ _))
      obtain ⟨st', hrun, hreg⟩ :=
        populate_wf rest st1 (fun c hm => h c (List.mem_cons_of_mem _ hm))
      refine ⟨st', ?_, ?_⟩
      · simp [populate_from_components, hrun1]
        exact hrun
      · rw [hreg, hreg1, mergedEntries]
        simp [optEntries]

/-- `mergedEntries` distributes over list concatenation. -/
theorem mergedEntries_append (l1 l2 : List (Option Component)) :
    mergedEntries (l1 ++ l2) = mergedEntries l1 ++ mergedEntries l2 := by
  induction l1 with
  | nil => simp [mergedEntries]
  | cons c rest ih => simp [mergedEntries, ih]

/-- The length of the merged entry list is the sum of the per-component
entry counts. -/
theorem mergedEntries_length (comps : List (Option Component)) :
    (mergedEntries comps).length = (comps.map (fun c => (optEntries c).length)).sum := by
  induction comps with
  | nil => simp [mergedEntries]
  | cons c rest ih => simp [mergedEntries, ih]

/-- Claim C1: merging preserves order and count — on construction the
facade's merged option set is the concatenation, in order, of each non-null
component's entries (null components contribute nothing, and within a
component the order of its group triples and their entries is kept), with
the facade's own built-in group merged last; `N` components contributing
`k_i` entries each yield exactly `Σ k_i` registered options (plus the
facade's own). -/
theorem populate_merges_in_order (docutils_version : String) (version0 : Option String)
    (components : List (Option Component))
    (h : ∀ comp : Component, some comp ∈ components → wellFormed comp.cmdline_options = true) :
    ∃ (v : String) (st : ParserState),
      init docutils_version version0 components = .ok (v, st) ∧
      st.registered = mergedEntries components ++ cellsEntries cmdline_options ∧
      st.registered.length
        = (components.map (fun c => (optEntries c).length)).sum
          + (cellsEntries cmdline_options).length := by
  have hwf : ∀ comp : Component,
      some comp ∈ components ++ [some (⟨cmdline_options⟩ : Component)] →
      wellFormed comp.cmdline_options = true := by
    intro comp hm
    rcases List.mem_append.mp hm with hm | hm
    · exact h comp hm
    · have hc : comp = (⟨cmdline_options⟩ : Component) := by
        simpa using hm
      subst hc
      rfl
  obtain ⟨st, hrun, hreg⟩ :=
    populate_wf (components ++ [some ⟨cmdline_options⟩]) ParserState.empty hwf
  have hconc : st.registered = mergedEntries components ++ cellsEntries cmdline_options := by
    rw [hreg, mergedEntries_append]
    simp [ParserState.empty, mergedEntries, optEntries]
  refine ⟨match version0 with
          | some s => if s = "" then version_template docutils_version else s
          | none => version_template docutils_version,
        st, ?_, hconc, ?_⟩
  · simp [init, hrun, Except.map]
  · rw [hconc]
    simp [mergedEntries_length]

/-- Witness for C1 at a concrete input: two components (one with a titled
group of two options, one ungrouped) and an interleaved null component. -/
theorem populate_merges_in_order_witness :
    ∃ (v : String) (st : ParserState),
      init "0.4" none [some sampleComponentA, none, some sampleComponentB] = .ok (v, st) ∧
      st.registered
        = mergedEntries [some sampleComponentA, none, some sampleComponentB]
            ++ cellsEntries cmdline_options ∧
      st.registered.length
        = ([some sampleComponentA, none, some sampleComponentB].map
            (fun c => (optEntries c).length)).sum
          + (cellsEntries cmdline_options).length := by
  refine populate_merges_in_order "0.4" none _ ?_
  intro comp hm
  simp only [List.mem_cons, List.not_mem_nil, or_false] at hm
  rcases hm with hm | hm | hm
  · cases hm
    rfl
  · cases hm
  · cases hm
    rfl

/-- Claim C2: every integer-parseable string resolves to that integer
verbatim — no range clamping or validation against 1–5 and no dependence on
the ten-string allow-list; in particular `resolve("3") == 3`,
`resolve("0") == 0`, `resolve("99") == 99`. -/
theorem check_threshold_int_verbatim :
    (∀ (s : String) (n : Int), pyParseInt s = some n → check_threshold (.vStr s) = .ok n) ∧
    check_threshold (.vStr "3") = .ok 3 ∧
    check_threshold (.vStr "0") = .ok 0 ∧
    check_threshold (.vStr "99") = .ok 99 := by
  refine ⟨?_, rfl, rfl, rfl⟩
  intro s n h
  simp [check_threshold, h]

/-- Witness for C2: the general statement applied at the parseable
string `"3"`. -/
theorem check_threshold_int_verbatim_witness :
    pyParseInt "3" = some 3 ∧ check_threshold (.vStr "3") = .ok 3 :=
  ⟨rfl, check_threshold_int_verbatim.1 "3" 3 rfl⟩

/-- Claim C3: a string that does not parse as an integer but whose lowercase
form is a key of the fixed table resolves to the mapped ordinal, so name
lookup is case-insensitive: `resolve("WARNING") == 2`,
`resolve("warning") == 2`, `resolve("none") == 5`; the table is exactly
info:1, warning:2, error:3, severe:4, none:5. -/
theorem check_threshold_name_lookup :
    (∀ (s : String) (n : Int), pyParseInt s = none →
        thresholds.lookup (pyLower s) = some n → check_threshold (.vStr s) = .ok n) ∧
    check_threshold (.vStr "WARNING") = .ok 2 ∧
    check_threshold (.vStr "warning") = .ok 2 ∧
    check_threshold (.vStr "none") = .ok 5 ∧
    thresholds = [("info", 1), ("warning", 2), ("error", 3), ("severe", 4), ("none", 5)] := by
  refine ⟨?_, rfl, rfl, rfl, rfl⟩
  intro s n h1 h2
  simp [check_threshold, h1, h2]

/-- Witness for C3: the general statement applied at `"WARNING"`. -/
theorem check_threshold_name_lookup_witness :
    pyParseInt "WARNING" = none ∧
    thresholds.lookup (pyLower "WARNING") = some 2 ∧
    check_threshold (.vStr "WARNING") = .ok 2 :=
  ⟨rfl, rfl, check_threshold_name_lookup.1 "WARNING" 2 rfl rfl⟩

/-- Claim C4: a string that neither parses as an integer nor (lowercased) is
a key of the table fails with the unknown-threshold error carrying the
message `Unknown threshold: <raw>` (the code interpolates `repr` of the raw
value and appends a period), and the resolver fails on no other string. -/
theorem check_threshold_unknown_error :
    (∀ s : String, pyParseInt s = none → thresholds.lookup (pyLower s) = none →
        check_threshold (.vStr s)
          = .error (.unknownThreshold ("Unknown threshold: " ++ pyRepr (.vStr s) ++ "."))) ∧
    (∀ s : String, pyRepr (.vStr s) = "'" ++ s ++ "'") ∧
    (∀ (s : String) (e : FrontendError), check_threshold (.vStr s) = .error e →
        pyParseInt s = none ∧ thresholds.lookup (pyLower s) = none ∧
          e = .unknownThreshold ("Unknown threshold: " ++ pyRepr (.vStr s) ++ ".")) ∧
    check_threshold (.vStr "bogus")
      = .error (.unknownThreshold "Unknown threshold: 'bogus'.") := by
  refine ⟨?_, fun s => rfl, ?_, rfl⟩
  · intro s h1 h2
    simp [check_threshold, h1, h2]
  · intro s e h
    simp only [check_threshold] at h
    rcases hp : pyParseInt s with _ | n
    · simp only [hp] at h
      rcases hl : thresholds.lookup (pyLower s) with _ | n
      · simp only [hl, Except.error.injEq] at h
        exact ⟨by simp [hp], by simp [hl], h.symm⟩
      · simp [hl] at h
    · simp [hp] at h

/-- Witness for C4: the general statement applied at `"bogus"`. -/
theorem check_threshold_unknown_error_witness :
    pyParseInt "bogus" = none ∧
    thresholds.lookup (pyLower "bogus") = none ∧
    check_threshold (.vStr "bogus")
      = .error (.unknownThreshold ("Unknown threshold: " ++ pyRepr (.vStr "bogus") ++ ".")) :=
  ⟨rfl, rfl, check_threshold_unknown_error.1 "bogus" rfl rfl⟩

/-- Claim C5: the positional-argument validator realizes exactly the
four-way classification — empty, one, or two elements succeed with the
popped prefix, and more than two fail with the too-many-arguments error
carrying `Maximum 2 arguments allowed.`. -/
theorem check_args_classification :
    check_args [] = .ok (none, none) ∧
    (∀ a : String, check_args [a] = .ok (some a, none)) ∧
    (∀ a b : String, check_args [a, b] = .ok (some a, some b)) ∧
    (∀ (a b c : String) (rest : List String),
        check_args (a :: b :: c :: rest)
          = .error (.tooManyArguments "Maximum 2 arguments allowed.")) := by
  refine ⟨rfl, ?_, ?_, ?_⟩ <;> intros <;> simp [check_args]

/-- Claim C9: `check_values` is exactly the composition — resolve
`report_level` then `halt_level` through the threshold resolver, overwriting
those two fields (and nothing else), validate the positional arguments, and
return `(values, source, destination)`; every failure of the resolver or
validator propagates unchanged. -/
theorem check_values_composition :
    (∀ (values : Values) (args : List String) (v' : Values) (s d : Option String),
        check_values values args = .ok (v', s, d) ↔
          ∃ rl hl, check_threshold values.report_level = .ok rl ∧
            check_threshold values.halt_level = .ok hl ∧
            check_args args = .ok (s, d) ∧
            v' = { values with report_level := .vInt rl, halt_level := .vInt hl }) ∧
    (∀ (values : Values) (args : List String) (e : FrontendError),
        check_threshold values.report_level = .error e →
        check_values values args = .error e) ∧
    (∀ (values : Values) (args : List String) (e : FrontendError),
        (∃ rl, check_threshold values.report_level = .ok rl) →
        check_threshold values.halt_level = .error e →
        check_values values args = .error e) ∧
    (∀ (values : Values) (args : List String) (e : FrontendError),
        (∃ rl, check_threshold values.report_level = .ok rl) →
        (∃ hl, check_threshold values.halt_level = .ok hl) →
        check_args args = .error e →
        check_values values args = .error e) := by
  refine ⟨?_, ?_, ?_, ?_⟩
  · intro values args v' s d
    constructor
    · intro h
      rcases hr : check_threshold values.report_level with e | rl
      · have hcv : check_values values args = .error e := by
          simp [check_values, bind, Except.bind, hr]
        rw [hcv] at h
        exact Except.noConfusion h
      · rcases hh : check_threshold values.halt_level with e | hl
        · have hcv : check_values values args = .error e := by
            simp [check_values, bind, Except.bind, hr, hh]
          rw [hcv] at h
          exact Except.noConfusion h
        · rcases ha : check_args args with e | sd
          · have hcv : check_values values args = .error e := by
              simp [check_values, bind, Except.bind, hr, hh, ha]
            rw [hcv] at h
            exact Except.noConfusion h
          · have hcv : check_values values args
                = .ok ({ values with report_level := .vInt rl, halt_level := .vInt hl },
                       sd.1, sd.2) := by
              simp [check_values, bind, Except.bind, hr, hh, ha, pure, Except.pure]
            rw [hcv] at h
            have h' := Except.ok.inj h
            simp only [Prod.mk.injEq] at h'
            obtain ⟨h1, h2, h3⟩ := h'
            refine ⟨rl, hl, by simp [hr], by simp [hh], ?_, h1.symm⟩
            exact congrArg Except.ok (Prod.ext_iff.mpr ⟨h2, h3⟩)
    · rintro ⟨rl, hl, h1, h2, h3, h4⟩
      simp [check_values, bind, Except.bind, h1, h2, h3, pure, Except.pure, h4]
  · intro values args e h
    simp [check_values, bind, Except.bind, h]
  · rintro values args e ⟨rl, hr⟩ h
    simp [check_values, bind, Except.bind, hr, h]
  · rintro values args e ⟨rl, hr⟩ ⟨hl, hh⟩ h
    simp [check_values, bind, Except.bind, hr, hh, h]

/-- Witness for C9: error propagation applied at a concrete failing
resolver input. -/
theorem check_values_composition_witness :
    check_threshold (Values.mk (.vStr "bogus") (.vInt 4) []).report_level
      = .error (.unknownThreshold "Unknown threshold: 'bogus'.") ∧
    check_values ⟨.vStr "bogus", .vInt 4, []⟩ ["a"]
      = .error (.unknownThreshold "Unknown threshold: 'bogus'.") :=
  ⟨rfl, check_values_composition.2.1 ⟨.vStr "bogus", .vInt 4, []⟩ ["a"] _ rfl⟩

/-- Claim C10 (implicit): the resolver accepts an already-integer value and
returns it unchanged, so resolution is idempotent whenever it succeeds; the
built-in `--report` and `--halt` entries carry the integer defaults 2 and 4,
and those defaults pass through `check_values` unchanged. -/
theorem check_threshold_idempotent :
    (∀ n : Int, check_threshold (.vInt n) = .ok n) ∧
    (∀ (x : Value) (n : Int), check_threshold x = .ok n → check_threshold (.vInt n) = .ok n) ∧
    (∃ e : OptionEntry,
        (cellsEntries cmdline_options).find? (fun e => e.option_strings.contains "--report")
          = some e ∧
        e.kwargs.defaultVal = some (.vInt 2) ∧ e.kwargs.dest = some "report_level") ∧
    (∃ e : OptionEntry,
        (cellsEntries cmdline_options).find? (fun e => e.option_strings.contains "--halt")
          = some e ∧
        e.kwargs.defaultVal = some (.vInt 4) ∧ e.kwargs.dest = some "halt_level") ∧
    (∀ (o : List (String × Value)) (args : List String) (s d : Option String),
        check_args args = .ok (s, d) →
        check_values ⟨.vInt 2, .vInt 4, o⟩ args = .ok (⟨.vInt 2, .vInt 4, o⟩, s, d)) := by
  refine ⟨fun n => rfl, ?_, ⟨_, rfl, rfl, rfl⟩, ⟨_, rfl, rfl, rfl⟩, ?_⟩
  · intro x n _
    rfl
  · intro o args s d h
    simp [check_values, bind, Except.bind, check_threshold, h, pure, Except.pure]

/-- Witness for C10: idempotence applied at the succeeding input
`"warning"`, and default pass-through applied at an empty argument list. -/
theorem check_threshold_idempotent_witness :
    check_threshold (.vStr "warning") = .ok 2 ∧
    check_threshold (.vInt 2) = .ok 2 ∧
    check_args ([] : List String) = .ok (none, none) ∧
    check_values ⟨.vInt 2, .vInt 4, []⟩ [] = .ok (⟨.vInt 2, .vInt 4, []⟩, none, none) :=
  ⟨rfl, check_threshold_idempotent.2.1 (.vStr "warning") 2 rfl, rfl,
    check_threshold_idempotent.2.2.2.2 [] [] none none rfl⟩

/-- A flat specification whose complete triples are well-typed but whose
length is not a multiple of three is processed to the wrong-arity
(`configurationError`) failure. -/
theorem processComponent_arity :
    ∀ (l : List SpecVal) (st : ParserState), completeTriplesOk l = true →
      l.length % 3 ≠ 0 → processComponent st l = .error .configurationError
  | [], _, _, h2 => absurd rfl h2
  | [_], _, _, _ => rfl
  | [_, _], _, _, _ => rfl
  | t :: d :: .vSpec es :: rest, st, h1, h2 => by
      have h1' : completeTriplesOk rest = true := by
        simpa [completeTriplesOk] using h1
      have h2' : rest.length % 3 ≠ 0 := by
        simp only [List.length_cons] at h2
        omega
      have ih := processComponent_arity rest
        (if t.truthy then addGroup st t d es else addTopLevel st es) h1' h2'
      simpa [processComponent] using ih
  | _ :: _ :: .vNone :: _, _, h1, _ => by simp [completeTriplesOk] at h1
  | _ :: _ :: .vStr _ :: _, _, h1, _ => by simp [completeTriplesOk] at h1

/-- Claim C6: a component whose specification length is not a multiple of
three fails the merge with the classified wrong-arity configuration error
(the `ValueError` of the triple unpacking), not with the threshold or
argument errors; concretely a two-cell component fails the whole populate
call. -/
theorem populate_uneven_arity_error :
    (∀ (comp : Component) (st : ParserState),
        completeTriplesOk comp.cmdline_options = true →
        comp.cmdline_options.length % 3 ≠ 0 →
          processComponent st comp.cmdline_options = .error .configurationError) ∧
    populate_from_components ParserState.empty
        [some ⟨[.vStr "Title", .vStr "Description"]⟩]
      = .error .configurationError := by
  refine ⟨?_, rfl⟩
  intro comp st h1 h2
  exact processComponent_arity comp.cmdline_options st h1 h2

/-- Witness for C6 at a concrete two-cell specification. -/
theorem populate_uneven_arity_error_witness :
    completeTriplesOk [SpecVal.vStr "Title", SpecVal.vStr "Description"] = true ∧
    [SpecVal.vStr "Title", SpecVal.vStr "Description"].length % 3 ≠ 0 ∧
    processComponent ParserState.empty [SpecVal.vStr "Title", SpecVal.vStr "Description"]
      = .error .configurationError :=
  ⟨rfl, by decide,
    populate_uneven_arity_error.1 ⟨[.vStr "Title", .vStr "Description"]⟩
      ParserState.empty rfl (by decide)⟩

/-- Claim C7: a truthy (non-empty) title always creates a brand-new named
section — the group list is extended unconditionally, with no lookup of
existing titles — while a falsy (empty or `None`) title sends the entries to
to the shared top-level bucket; two components each declaring a group titled
`"Foo"` produce two distinct sections. -/
theorem populate_new_section_semantics :
    (∀ (st : ParserState) (t d : SpecVal) (es : List OptionEntry) (rest : List SpecVal),
        t.truthy = true →
          processComponent st (t :: d :: .vSpec es :: rest)
            = processComponent
                { st with option_groups := st.option_groups ++ [⟨t, d, es⟩],
                          registered := st.registered ++ es } rest) ∧
    (∀ (st : ParserState) (t d : SpecVal) (es : List OptionEntry) (rest : List SpecVal),
        t.truthy = false →
          processComponent st (t :: d :: .vSpec es :: rest)
            = processComponent
                { st with option_list := st.option_list ++ es,
                          registered := st.registered ++ es } rest) ∧
    populate_from_components ParserState.empty
        [some ⟨[.vStr "Foo", .vNone, .vSpec [sampleEntry1]]⟩,
         some ⟨[.vStr "Foo", .vNone, .vSpec [sampleEntry2]]⟩]
      = .ok ⟨[⟨.vStr "Foo", .vNone, [sampleEntry1]⟩, ⟨.vStr "Foo", .vNone, [sampleEntry2]⟩],
             [], [sampleEntry1, sampleEntry2]⟩ := by
  refine ⟨?_, ?_, rfl⟩
  · intro st t d es rest ht
    simp [processComponent, ht, addGroup]
  · intro st t d es rest ht
    simp [processComponent, ht, addTopLevel]

/-- Witness for C7: the new-section rule applied at a concrete truthy
title. -/
theorem populate_new_section_semantics_witness :
    SpecVal.truthy (.vStr "Foo") = true ∧
    processComponent ParserState.empty [.vStr "Foo", .vNone, .vSpec [sampleEntry1]]
      = processComponent
          { ParserState.empty with
            option_groups
              := ParserState.empty.option_groups ++ [⟨.vStr "Foo", .vNone, [sampleEntry1]⟩],
            registered := ParserState.empty.registered ++ [sampleEntry1] } [] :=
  ⟨rfl,
    populate_new_section_semantics.1 ParserState.empty (.vStr "Foo") .vNone [sampleEntry1] []
      rfl⟩

end OptionParser

/-- On an upper-case ASCII letter, `pyCharLower` shifts the code point up by
32. -/
theorem pyCharLower_toNat_of_upper {c : Char} (h : 65 ≤ c.toNat ∧ c.toNat ≤ 90) :
    (pyCharLower c).toNat = c.toNat + 32 := by
  simp only [pyCharLower, dif_pos h]
  rfl

/-- Outside the upper-case ASCII range, `pyCharLower` is the identity. -/
theorem pyCharLower_of_not_upper {c : Char} (h : ¬(65 ≤ c.toNat ∧ c.toNat ≤ 90)) :
    pyCharLower c = c :=
  dif_neg h

/-- The per-byte normalization (lower-case then dash-to-underscore) is
idempotent. -/
theorem normChar_idem (c : Char) :
    dashToUnderscore (pyCharLower (dashToUnderscore (pyCharLower c)))
      = dashToUnderscore (pyCharLower c) := by
  by_cases h : 65 ≤ c.toNat ∧ c.toNat ≤ 90
  · have h1 : (pyCharLower c).toNat = c.toNat + 32 := pyCharLower_toNat_of_upper h
    have hne : ¬((pyCharLower c).toNat = 45) := by omega
    have h45 : dashToUnderscore (pyCharLower c) = pyCharLower c := by
      simp [dashToUnderscore, hne]
    rw [h45]
    have hnu : ¬(65 ≤ (pyCharLower c).toNat ∧ (pyCharLower c).toNat ≤ 90) := by omega
    rw [pyCharLower_of_not_upper hnu, h45]
  · rw [pyCharLower_of_not_upper h]
    by_cases h45 : c.toNat = 45
    · have hd : dashToUnderscore c = '_' := by simp [dashToUnderscore, h45]
      rw [hd]
      have hu : ¬(65 ≤ ('_').toNat ∧ ('_').toNat ≤ 90) := by decide
      rw [pyCharLower_of_not_upper hu]
      decide
    · have hd : dashToUnderscore c = c := by simp [dashToUnderscore, h45]
      rw [hd, pyCharLower_of_not_upper h, hd]

/-- Idempotence of the normalization, lifted to character lists. -/
theorem list_norm_idem (l : List Char) :
    ((((l.map pyCharLower).map dashToUnderscore).map pyCharLower).map dashToUnderscore)
      = (l.map pyCharLower).map dashToUnderscore := by
  induction l with
  | nil => rfl
  | cons c cs ih =>
      simp only [List.map_cons]
      rw [normChar_idem c, ih]

/-- Claim C8: the config-key normalizer lowercases and replaces every dash
with an underscore — `normalize("Report-Level") == "report_level"`,
`normalize("REPORT_LEVEL") == "report_level"` — and it is idempotent on
every string. -/
theorem optionxform_spec :
    ConfigParser.optionxform "Report-Level" = "report_level" ∧
    ConfigParser.optionxform "REPORT_LEVEL" = "report_level" ∧
    ∀ x : String, ConfigParser.optionxform (ConfigParser.optionxform x)
        = ConfigParser.optionxform x := by
  refine ⟨by decide, by decide, ?_⟩
  intro x
  exact congrArg String.mk (list_norm_idem x.data)

end Docutils
